import Mathlib

/-!
Shallow embedding of the `egui_gravisim` application (src/main.rs), a 2D
gravity sandbox.  The `f32` arithmetic of the source is idealized as real
arithmetic.  Each Rust item is translated to a Lean definition with the
same name; the per-frame `GravisimApp::update` body is decomposed into
sub-steps `reset_step`, `hud_step`, `elastic_step`, `pan_step`,
`zoom_step`, `physics_step`, `press_step`, `release_step`, composed in the
source's statement order by `step`.
-/

namespace Gravisim

noncomputable section

/-- A 2D vector with real components, modelling `nalgebra::Vector2<f32>`. -/
@[ext]
structure Vector2 where
  x : ℝ
  y : ℝ

namespace Vector2

/-- Componentwise addition (`+` on `nalgebra` vectors). -/
def add (a b : Vector2) : Vector2 := ⟨a.x + b.x, a.y + b.y⟩

/-- Componentwise subtraction (`-` on `nalgebra` vectors). -/
def sub (a b : Vector2) : Vector2 := ⟨a.x - b.x, a.y - b.y⟩

/-- Multiplication of a vector by a scalar (`v * c`). -/
def smul (a : Vector2) (c : ℝ) : Vector2 := ⟨a.x * c, a.y * c⟩

/-- Division of a vector by a scalar (`v / c`). -/
def div_scalar (a : Vector2) (c : ℝ) : Vector2 := ⟨a.x / c, a.y / c⟩

/-- `nalgebra`'s `norm_squared`: the sum of the squares of the components. -/
def norm_squared (a : Vector2) : ℝ := a.x * a.x + a.y * a.y

/-- `nalgebra`'s `normalize`: the vector divided by its Euclidean norm. -/
def normalize (a : Vector2) : Vector2 := a.div_scalar (Real.sqrt a.norm_squared)

end Vector2

/-- `egui::Color32`, kept abstract as an RGB triple (only constructed via
`Color32::from_rgb`). -/
structure Color32 where
  r : ℕ
  g : ℕ
  b : ℕ

/-- The gravitational constant `G` of src/main.rs line 6. -/
def G : ℝ := 0.0005

/-- The `Body` struct of src/main.rs. -/
structure Body where
  pos : Vector2
  vel : Vector2
  mass : ℝ
  radius : ℝ
  color : Color32

/-- `Body::new`: radius is the given size, mass is `density * radius * radius`,
color is fixed to `Color32::from_rgb(200, 200, 255)`. -/
def Body.new (pos vel : Vector2) (density size : ℝ) : Body :=
  let radius := size
  let mass := density * radius * radius
  { pos := pos, vel := vel, mass := mass, radius := radius,
    color := ⟨200, 200, 255⟩ }

/-- `Body::apply_gravity`: mutates only `self` (returned as a new value);
skips the interaction when the squared distance is below `1.0`, otherwise
adds `normalize(dir) * (G * m_self * m_other / dist_sq) / m_self` to the
velocity of `self`. -/
def Body.apply_gravity (self other : Body) : Body :=
  let dir := other.pos.sub self.pos
  let dist_sq := dir.norm_squared
  if dist_sq < 1 then self
  else
    let force_mag := G * self.mass * other.mass / dist_sq
    let force := dir.normalize.smul force_mag
    { self with vel := self.vel.add (force.div_scalar self.mass) }

/-- `Body::update`: explicit Euler integration of the position. -/
def Body.update (self : Body) (dt : ℝ) : Body :=
  { self with pos := self.pos.add (self.vel.smul dt) }

/-- The gravity loop of `GravisimApp::update` (lines 122-128): body `i` is
folded, left to right, over the bodies after it in the list; bodies after
`i` are still unmodified at that point (each iteration mutates only body
`i`), so the suffix used is the original one. -/
def gravity_pass : List Body → List Body
  | [] => []
  | this :: right => right.foldl Body.apply_gravity this :: gravity_pass right

/-- The integration loop of `GravisimApp::update` (lines 140-142). -/
def integrate_pass (dt : ℝ) (bodies : List Body) : List Body :=
  bodies.map (fun b => b.update dt)

/-- The `GravisimApp` state struct. -/
structure GravisimApp where
  bodies : List Body
  camera_pos : Vector2
  zoom : ℝ
  selected_size : ℝ
  selected_density : ℝ
  selected_pos : Option Vector2
  show_hud : Bool
  elastic : Bool

/-- `GravisimApp::default`. -/
def GravisimApp.default : GravisimApp :=
  { bodies := [], camera_pos := ⟨0, 0⟩, zoom := 1, selected_size := 50,
    selected_density := 1, selected_pos := none, show_hud := true,
    elastic := false }

/-- The per-frame input snapshot read by `GravisimApp::update`:
`stable_dt`, key states, scroll delta, pointer state, and the center of
the allocated panel rect (which the source gets from the UI layout). -/
structure Input where
  stable_dt : ℝ
  key_r : Bool
  key_h : Bool
  key_e : Bool
  key_w : Bool
  key_s : Bool
  key_a : Bool
  key_d : Bool
  raw_scroll_delta_y : ℝ
  pointer_hover : Option Vector2
  pointer_pressed : Bool
  pointer_released : Bool
  center : Vector2

/-- Lines 82-86: the `R` key clears the bodies and resets camera and zoom. -/
def reset_step (s : GravisimApp) (inp : Input) : GravisimApp :=
  if inp.key_r then { s with bodies := [], camera_pos := ⟨0, 0⟩, zoom := 1 }
  else s

/-- Lines 87-89: the `H` key toggles the HUD. -/
def hud_step (s : GravisimApp) (inp : Input) : GravisimApp :=
  if inp.key_h then { s with show_hud := !s.show_hud } else s

/-- Lines 90-92: the `E` key toggles the elastic flag. -/
def elastic_step (s : GravisimApp) (inp : Input) : GravisimApp :=
  if inp.key_e then { s with elastic := !s.elastic } else s

/-- Lines 94-107: WASD pan the camera by `300 * dt / zoom`. -/
def pan_step (s : GravisimApp) (inp : Input) : GravisimApp :=
  let pan_speed := 300 * inp.stable_dt / s.zoom
  let p0 := s.camera_pos
  let p1 := if inp.key_w then Vector2.mk p0.x (p0.y - pan_speed) else p0
  let p2 := if inp.key_s then Vector2.mk p1.x (p1.y + pan_speed) else p1
  let p3 := if inp.key_a then Vector2.mk (p2.x - pan_speed) p2.y else p2
  let p4 := if inp.key_d then Vector2.mk (p3.x + pan_speed) p3.y else p3
  { s with camera_pos := p4 }

/-- The per-frame zoom multiplier `(1.0 + scroll_y * 0.1).clamp(0.1, 10.0)`
of line 110 (Rust `clamp(lo, hi)` is `min (max x lo) hi` for `lo ≤ hi`). -/
def zoom_factor (scroll_y : ℝ) : ℝ := min (max (1 + scroll_y * 0.1) 0.1) 10

/-- Line 110: `zoom *= zoom_factor`. -/
def zoom_step (s : GravisimApp) (inp : Input) : GravisimApp :=
  { s with zoom := s.zoom * zoom_factor inp.raw_scroll_delta_y }

/-- Lines 122-142: the gravity pass followed by the integration pass. -/
def physics_step (s : GravisimApp) (inp : Input) : GravisimApp :=
  { s with bodies := integrate_pass inp.stable_dt (gravity_pass s.bodies) }

/-- Line 147: `world = (screen - center) / zoom + camera_pos`. -/
def screen_to_world (camera_pos : Vector2) (zoom : ℝ) (center screen : Vector2) :
    Vector2 :=
  ((screen.sub center).div_scalar zoom).add camera_pos

/-- Line 169: `screen = (world - camera_pos) * zoom + center`. -/
def world_to_screen (camera_pos : Vector2) (zoom : ℝ) (center world : Vector2) :
    Vector2 :=
  ((world.sub camera_pos).smul zoom).add center

/-- Lines 145-147: the pointer's world position, falling back to the panel
center when no hover position exists. -/
def world_mouse (s : GravisimApp) (inp : Input) : Vector2 :=
  screen_to_world s.camera_pos s.zoom inp.center (inp.pointer_hover.getD inp.center)

/-- Lines 150-152: a press records the anchor only when none is pending. -/
def press_step (s : GravisimApp) (wm : Vector2) (inp : Input) : GravisimApp :=
  if inp.pointer_pressed && s.selected_pos.isNone then
    { s with selected_pos := some wm }
  else s

/-- Lines 154-165: a release with a pending anchor appends
`Body::new(start, (end - start) / 20.0, density, size)` and clears the
anchor. -/
def release_step (s : GravisimApp) (wm : Vector2) (inp : Input) : GravisimApp :=
  if inp.pointer_released then
    match s.selected_pos with
    | some start =>
        { s with
          bodies := s.bodies ++
            [Body.new start ((wm.sub start).div_scalar 20)
              s.selected_density s.selected_size],
          selected_pos := none }
    | none => s
  else s

/-- The state just before the spawn-gesture handling of a frame: reset, HUD
and elastic toggles, pan, zoom, then physics, in source order. -/
def pre_spawn (s : GravisimApp) (inp : Input) : GravisimApp :=
  physics_step
    (zoom_step (pan_step (elastic_step (hud_step (reset_step s inp) inp) inp) inp) inp)
    inp

/-- One whole frame of `GravisimApp::update` (the world mouse position is
computed after pan/zoom, and the same value is used by press and release
handling, as in the source). -/
def step (s : GravisimApp) (inp : Input) : GravisimApp :=
  let s6 := pre_spawn s inp
  let wm := world_mouse s6 inp
  release_step (press_step s6 wm inp) wm inp

/-! ### Helper lemmas -/

theorem gravity_pass_length (bodies : List Body) :
    (gravity_pass bodies).length = bodies.length := by
  induction bodies with
  | nil => rfl
  | cons b rest ih => simp [gravity_pass, ih]

theorem gravity_pass_getElem (bodies : List Body) (i : ℕ) :
    (gravity_pass bodies)[i]? =
      (bodies[i]?).map (fun b => (bodies.drop (i + 1)).foldl Body.apply_gravity b) := by
  induction bodies generalizing i with
  | nil => simp [gravity_pass]
  | cons b rest ih =>
      cases i with
      | zero => simp [gravity_pass]
      | succ n => simpa [gravity_pass] using ih n

theorem apply_gravity_fields (b o : Body) :
    (b.apply_gravity o).pos = b.pos ∧ (b.apply_gravity o).mass = b.mass ∧
    (b.apply_gravity o).radius = b.radius ∧ (b.apply_gravity o).color = b.color := by
  simp only [Body.apply_gravity]
  split <;> exact ⟨rfl, rfl, rfl, rfl⟩

/-! ### Claim theorems -/

/-- C1: in the per-frame gravity pass over the ordered body collection, every
unordered pair `(i, j)` with `i < j` is processed exactly once — body `i`'s
result is the fold of `apply_gravity` over exactly the bodies after index `i`,
each used once — and an interaction changes only the first body's velocity
(position, mass, radius, color are untouched); the second body of a pair is
not written at all by that pair's processing (body `j`'s result depends only
on the bodies after `j`). -/
theorem gravity_pass_each_pair_once (bodies : List Body) (i : ℕ) :
    (gravity_pass bodies).length = bodies.length ∧
    (gravity_pass bodies)[i]? =
      (bodies[i]?).map (fun b => (bodies.drop (i + 1)).foldl Body.apply_gravity b) ∧
    (∀ b o : Body,
      (b.apply_gravity o).pos = b.pos ∧ (b.apply_gravity o).mass = b.mass ∧
      (b.apply_gravity o).radius = b.radius ∧ (b.apply_gravity o).color = b.color) :=
  ⟨gravity_pass_length bodies, gravity_pass_getElem bodies i,
    fun b o => apply_gravity_fields b o⟩

/-- C2: when the squared distance is at least `1.0`, `apply_gravity` adds
exactly `normalize(pos(other) - pos(self)) * (G * mass(self) * mass(other) /
dist_sq) / mass(self)` to the velocity of `self` and changes nothing else
about `self`. -/
theorem apply_gravity_far_adds_force (b o : Body)
    (h : 1 ≤ (o.pos.sub b.pos).norm_squared) :
    (b.apply_gravity o).vel =
      b.vel.add
        (((o.pos.sub b.pos).normalize.smul
            (G * b.mass * o.mass / (o.pos.sub b.pos).norm_squared)).div_scalar
          b.mass) ∧
    (b.apply_gravity o).pos = b.pos ∧ (b.apply_gravity o).mass = b.mass ∧
    (b.apply_gravity o).radius = b.radius ∧ (b.apply_gravity o).color = b.color := by
  have hnot : ¬(o.pos.sub b.pos).norm_squared < 1 := not_lt.mpr h
  simp only [Body.apply_gravity]
  rw [if_neg hnot]
  exact ⟨rfl, rfl, rfl, rfl, rfl⟩

/-- Witness bodies one world unit apart (squared distance exactly `1`). -/
def body_a : Body :=
  { pos := ⟨0, 0⟩, vel := ⟨0, 0⟩, mass := 2, radius := 1, color := ⟨0, 0, 0⟩ }

/-- Second witness body for the far-interaction witness. -/
def body_b : Body :=
  { pos := ⟨1, 0⟩, vel := ⟨0, 0⟩, mass := 3, radius := 1, color := ⟨0, 0, 0⟩ }

/-- Witness for C2: two concrete bodies at squared distance exactly `1`. -/
theorem apply_gravity_far_adds_force_witness :
    1 ≤ (body_b.pos.sub body_a.pos).norm_squared ∧
    (body_a.apply_gravity body_b).vel =
      body_a.vel.add
        (((body_b.pos.sub body_a.pos).normalize.smul
            (G * body_a.mass * body_b.mass /
              (body_b.pos.sub body_a.pos).norm_squared)).div_scalar
          body_a.mass) := by
  have h1 : 1 ≤ (body_b.pos.sub body_a.pos).norm_squared := by
    norm_num [body_a, body_b, Vector2.sub, Vector2.norm_squared]
  exact ⟨h1, (apply_gravity_far_adds_force body_a body_b h1).1⟩

/-- C3: when the squared distance is below `1.0` (including identical
positions), `apply_gravity` returns `self` unchanged — the pair is skipped,
so neither body's state is written by that pair. -/
theorem apply_gravity_near_skips (b o : Body)
    (h : (o.pos.sub b.pos).norm_squared < 1) :
    b.apply_gravity o = b := by
  simp only [Body.apply_gravity]
  rw [if_pos h]

/-- Witness for C3: a pair of bodies at identical positions is skipped. -/
theorem apply_gravity_near_skips_witness :
    (body_a.pos.sub body_a.pos).norm_squared < 1 ∧
    body_a.apply_gravity body_a = body_a := by
  have h1 : (body_a.pos.sub body_a.pos).norm_squared < 1 := by
    norm_num [body_a, Vector2.sub, Vector2.norm_squared]
  exact ⟨h1, apply_gravity_near_skips body_a body_a h1⟩

/-- C5: the integrator step moves every body by `velocity * dt` and leaves
velocity, mass, radius and color unchanged, unconditionally; in particular a
body at `(0,0)` with velocity `(10,0)` and `dt = 0.5` ends at exactly `(5,0)`
with velocity still `(10,0)`. -/
theorem body_update_euler (b : Body) (dt : ℝ) (bodies : List Body) (i : ℕ) :
    (b.update dt).pos = b.pos.add (b.vel.smul dt) ∧
    (b.update dt).vel = b.vel ∧ (b.update dt).mass = b.mass ∧
    (b.update dt).radius = b.radius ∧ (b.update dt).color = b.color ∧
    (integrate_pass dt bodies)[i]? = (bodies[i]?).map (fun bb => bb.update dt) ∧
    (Body.update ⟨⟨0, 0⟩, ⟨10, 0⟩, b.mass, b.radius, b.color⟩ 0.5).pos = ⟨5, 0⟩ ∧
    (Body.update ⟨⟨0, 0⟩, ⟨10, 0⟩, b.mass, b.radius, b.color⟩ 0.5).vel = ⟨10, 0⟩ := by
  refine ⟨rfl, rfl, rfl, rfl, rfl, ?_, ?_, rfl⟩
  · simp [integrate_pass]
  · simp only [Body.update, Vector2.add, Vector2.smul]
    norm_num [Vector2.mk.injEq]

/-- C7: a frame in which the `R` key is pressed has, immediately after the
reset handling (the first input handled that frame), an empty body
collection, camera offset `(0,0)` and zoom `1.0`, for any prior state. -/
theorem reset_clears (s : GravisimApp) (inp : Input) (h : inp.key_r = true) :
    (reset_step s inp).bodies = [] ∧
    (reset_step s inp).camera_pos = ⟨0, 0⟩ ∧
    (reset_step s inp).zoom = 1 := by
  simp [reset_step, h]

/-- A concrete non-default prior state for the reset witness. -/
def s_prior : GravisimApp :=
  { GravisimApp.default with bodies := [body_a], camera_pos := ⟨3, 4⟩, zoom := 7 }

/-- A frame input with only the `R` key pressed. -/
def inp_reset : Input :=
  { stable_dt := 0, key_r := true, key_h := false, key_e := false,
    key_w := false, key_s := false, key_a := false, key_d := false,
    raw_scroll_delta_y := 0, pointer_hover := none, pointer_pressed := false,
    pointer_released := false, center := ⟨0, 0⟩ }

/-- Witness for C7: resetting a state with one body, moved camera and zoom 7. -/
theorem reset_clears_witness :
    inp_reset.key_r = true ∧ (reset_step s_prior inp_reset).bodies = [] ∧
    (reset_step s_prior inp_reset).camera_pos = ⟨0, 0⟩ ∧
    (reset_step s_prior inp_reset).zoom = 1 :=
  ⟨rfl, (reset_clears s_prior inp_reset rfl).1,
    (reset_clears s_prior inp_reset rfl).2.1,
    (reset_clears s_prior inp_reset rfl).2.2⟩

/-- C8: for any nonzero zoom, the world-to-screen and screen-to-world
transforms are mutually inverse round-trips. -/
theorem transform_round_trip (c : Vector2) (z : ℝ) (center p scr : Vector2)
    (hz : z ≠ 0) :
    screen_to_world c z center (world_to_screen c z center p) = p ∧
    world_to_screen c z center (screen_to_world c z center scr) = scr := by
  constructor
  · simp only [screen_to_world, world_to_screen, Vector2.add, Vector2.sub,
      Vector2.smul, Vector2.div_scalar]
    ext <;> (dsimp; field_simp; try ring)
  · simp only [screen_to_world, world_to_screen, Vector2.add, Vector2.sub,
      Vector2.smul, Vector2.div_scalar]
    ext <;> (dsimp; field_simp; try ring)

/-- Witness for C8: a concrete round trip at zoom `2`. -/
theorem transform_round_trip_witness :
    (2 : ℝ) ≠ 0 ∧
    screen_to_world ⟨3, 4⟩ 2 ⟨5, 6⟩ (world_to_screen ⟨3, 4⟩ 2 ⟨5, 6⟩ ⟨7, 8⟩) =
      ⟨7, 8⟩ :=
  ⟨by norm_num,
    (transform_round_trip ⟨3, 4⟩ 2 ⟨5, 6⟩ ⟨7, 8⟩ ⟨0, 0⟩ (by norm_num)).1⟩

/-! ### Projection lemmas for the frame sub-steps -/

@[simp] theorem reset_step_selected_pos (s : GravisimApp) (inp : Input) :
    (reset_step s inp).selected_pos = s.selected_pos := by
  unfold reset_step; split <;> rfl

@[simp] theorem reset_step_selected_density (s : GravisimApp) (inp : Input) :
    (reset_step s inp).selected_density = s.selected_density := by
  unfold reset_step; split <;> rfl

@[simp] theorem reset_step_selected_size (s : GravisimApp) (inp : Input) :
    (reset_step s inp).selected_size = s.selected_size := by
  unfold reset_step; split <;> rfl

theorem reset_step_zoom (s : GravisimApp) (inp : Input) :
    (reset_step s inp).zoom = if inp.key_r then 1 else s.zoom := by
  unfold reset_step; split <;> rfl

theorem reset_step_bodies (s : GravisimApp) (inp : Input) :
    (reset_step s inp).bodies = if inp.key_r then [] else s.bodies := by
  unfold reset_step; split <;> rfl

@[simp] theorem hud_step_selected_pos (s : GravisimApp) (inp : Input) :
    (hud_step s inp).selected_pos = s.selected_pos := by
  unfold hud_step; split <;> rfl

@[simp] theorem hud_step_selected_density (s : GravisimApp) (inp : Input) :
    (hud_step s inp).selected_density = s.selected_density := by
  unfold hud_step; split <;> rfl

@[simp] theorem hud_step_selected_size (s : GravisimApp) (inp : Input) :
    (hud_step s inp).selected_size = s.selected_size := by
  unfold hud_step; split <;> rfl

@[simp] theorem hud_step_zoom (s : GravisimApp) (inp : Input) :
    (hud_step s inp).zoom = s.zoom := by
  unfold hud_step; split <;> rfl

@[simp] theorem hud_step_bodies (s : GravisimApp) (inp : Input) :
    (hud_step s inp).bodies = s.bodies := by
  unfold hud_step; split <;> rfl

@[simp] theorem elastic_step_selected_pos (s : GravisimApp) (inp : Input) :
    (elastic_step s inp).selected_pos = s.selected_pos := by
  unfold elastic_step; split <;> rfl

@[simp] theorem elastic_step_selected_density (s : GravisimApp) (inp : Input) :
    (elastic_step s inp).selected_density = s.selected_density := by
  unfold elastic_step; split <;> rfl

@[simp] theorem elastic_step_selected_size (s : GravisimApp) (inp : Input) :
    (elastic_step s inp).selected_size = s.selected_size := by
  unfold elastic_step; split <;> rfl

@[simp] theorem elastic_step_zoom (s : GravisimApp) (inp : Input) :
    (elastic_step s inp).zoom = s.zoom := by
  unfold elastic_step; split <;> rfl

@[simp] theorem elastic_step_bodies (s : GravisimApp) (inp : Input) :
    (elastic_step s inp).bodies = s.bodies := by
  unfold elastic_step; split <;> rfl

@[simp] theorem pan_step_selected_pos (s : GravisimApp) (inp : Input) :
    (pan_step s inp).selected_pos = s.selected_pos := rfl

@[simp] theorem pan_step_selected_density (s : GravisimApp) (inp : Input) :
    (pan_step s inp).selected_density = s.selected_density := rfl

@[simp] theorem pan_step_selected_size (s : GravisimApp) (inp : Input) :
    (pan_step s inp).selected_size = s.selected_size := rfl

@[simp] theorem pan_step_zoom (s : GravisimApp) (inp : Input) :
    (pan_step s inp).zoom = s.zoom := rfl

@[simp] theorem pan_step_bodies (s : GravisimApp) (inp : Input) :
    (pan_step s inp).bodies = s.bodies := rfl

@[simp] theorem zoom_step_selected_pos (s : GravisimApp) (inp : Input) :
    (zoom_step s inp).selected_pos = s.selected_pos := rfl

@[simp] theorem zoom_step_selected_density (s : GravisimApp) (inp : Input) :
    (zoom_step s inp).selected_density = s.selected_density := rfl

@[simp] theorem zoom_step_selected_size (s : GravisimApp) (inp : Input) :
    (zoom_step s inp).selected_size = s.selected_size := rfl

@[simp] theorem zoom_step_bodies (s : GravisimApp) (inp : Input) :
    (zoom_step s inp).bodies = s.bodies := rfl

theorem zoom_step_zoom (s : GravisimApp) (inp : Input) :
    (zoom_step s inp).zoom = s.zoom * zoom_factor inp.raw_scroll_delta_y := rfl

@[simp] theorem physics_step_selected_pos (s : GravisimApp) (inp : Input) :
    (physics_step s inp).selected_pos = s.selected_pos := rfl

@[simp] theorem physics_step_selected_density (s : GravisimApp) (inp : Input) :
    (physics_step s inp).selected_density = s.selected_density := rfl

@[simp] theorem physics_step_selected_size (s : GravisimApp) (inp : Input) :
    (physics_step s inp).selected_size = s.selected_size := rfl

@[simp] theorem physics_step_zoom (s : GravisimApp) (inp : Input) :
    (physics_step s inp).zoom = s.zoom := rfl

theorem physics_step_bodies (s : GravisimApp) (inp : Input) :
    (physics_step s inp).bodies = integrate_pass inp.stable_dt (gravity_pass s.bodies) :=
  rfl

@[simp] theorem press_step_zoom (s : GravisimApp) (wm : Vector2) (inp : Input) :
    (press_step s wm inp).zoom = s.zoom := by
  unfold press_step; split <;> rfl

@[simp] theorem release_step_zoom (s : GravisimApp) (wm : Vector2) (inp : Input) :
    (release_step s wm inp).zoom = s.zoom := by
  rcases h : s.selected_pos with _ | a <;> by_cases hr : inp.pointer_released <;>
    simp [release_step, h, hr]

theorem pre_spawn_selected_pos (s : GravisimApp) (inp : Input) :
    (pre_spawn s inp).selected_pos = s.selected_pos := by
  simp [pre_spawn]

theorem pre_spawn_selected_density (s : GravisimApp) (inp : Input) :
    (pre_spawn s inp).selected_density = s.selected_density := by
  simp [pre_spawn]

theorem pre_spawn_selected_size (s : GravisimApp) (inp : Input) :
    (pre_spawn s inp).selected_size = s.selected_size := by
  simp [pre_spawn]

theorem pre_spawn_zoom (s : GravisimApp) (inp : Input) :
    (pre_spawn s inp).zoom =
      (if inp.key_r then 1 else s.zoom) * zoom_factor inp.raw_scroll_delta_y := by
  simp [pre_spawn, zoom_step_zoom, reset_step_zoom]

theorem pre_spawn_bodies_length (s : GravisimApp) (inp : Input) :
    (pre_spawn s inp).bodies.length = if inp.key_r then 0 else s.bodies.length := by
  by_cases h : inp.key_r <;>
    simp [pre_spawn, physics_step_bodies, reset_step_bodies, integrate_pass,
      gravity_pass_length, h]

theorem step_eq (s : GravisimApp) (inp : Input) :
    step s inp =
      release_step (press_step (pre_spawn s inp) (world_mouse (pre_spawn s inp) inp) inp)
        (world_mouse (pre_spawn s inp) inp) inp := rfl

/-- C4: a pointer release while a spawn anchor is pending appends exactly one
body to the (post-physics) collection: position the recorded anchor, velocity
`(release_world_pos - anchor) / 20`, radius the configured size, mass
`density * radius * radius` (so density `1`, radius `50` give mass `2500`);
the pending anchor is cleared to `none`. -/
theorem release_appends_one_body (s : GravisimApp) (inp : Input) (anchor : Vector2)
    (hrel : inp.pointer_released = true) (hsel : s.selected_pos = some anchor) :
    (step s inp).bodies =
      (pre_spawn s inp).bodies ++
        [Body.new anchor
          (((world_mouse (pre_spawn s inp) inp).sub anchor).div_scalar 20)
          s.selected_density s.selected_size] ∧
    (step s inp).selected_pos = none ∧
    (∀ p v : Vector2, ∀ d sz : ℝ,
      (Body.new p v d sz).pos = p ∧ (Body.new p v d sz).vel = v ∧
      (Body.new p v d sz).radius = sz ∧ (Body.new p v d sz).mass = d * sz * sz) ∧
    (∀ p v : Vector2, (Body.new p v 1 50).mass = 2500) := by
  have hsp : (pre_spawn s inp).selected_pos = some anchor := by
    rw [pre_spawn_selected_pos, hsel]
  have hpress :
      press_step (pre_spawn s inp) (world_mouse (pre_spawn s inp) inp) inp =
        pre_spawn s inp := by
    simp [press_step, hsp]
  refine ⟨?_, ?_, ?_, ?_⟩
  · rw [step_eq, hpress]
    simp [release_step, hrel, hsp, pre_spawn_selected_density, pre_spawn_selected_size]
  · rw [step_eq, hpress]
    simp [release_step, hrel, hsp]
  · intro p v d sz
    exact ⟨rfl, rfl, rfl, rfl⟩
  · intro p v
    norm_num [Body.new]

/-- A state whose spawn anchor is pending at world position `(100, 100)`. -/
def s_pending : GravisimApp :=
  { GravisimApp.default with selected_pos := some ⟨100, 100⟩ }

/-- A frame input releasing the pointer at screen position `(200, 100)` with
panel center `(0, 0)` and no other input. -/
def inp_release : Input :=
  { stable_dt := 0, key_r := false, key_h := false, key_e := false,
    key_w := false, key_s := false, key_a := false, key_d := false,
    raw_scroll_delta_y := 0, pointer_hover := some ⟨200, 100⟩,
    pointer_pressed := false, pointer_released := true, center := ⟨0, 0⟩ }

/-- Witness for C4: releasing at `(200, 100)` with anchor `(100, 100)` spawns
one body at the anchor with velocity `(5, 0)` and mass `2500`. -/
theorem release_appends_one_body_witness :
    inp_release.pointer_released = true ∧
    s_pending.selected_pos = some ⟨100, 100⟩ ∧
    (step s_pending inp_release).selected_pos = none ∧
    (step s_pending inp_release).bodies = [Body.new ⟨100, 100⟩ ⟨5, 0⟩ 1 50] ∧
    (Body.new ⟨100, 100⟩ ⟨5, 0⟩ 1 50).mass = 2500 := by
  have h := release_appends_one_body s_pending inp_release ⟨100, 100⟩ rfl rfl
  refine ⟨rfl, rfl, h.2.1, ?_, h.2.2.2 ⟨100, 100⟩ ⟨5, 0⟩⟩
  rw [h.1]
  have hzf : zoom_factor 0 = 1 := by
    unfold zoom_factor
    rw [show (1 : ℝ) + 0 * 0.1 = 1 by norm_num,
      max_eq_left (by norm_num : (0.1 : ℝ) ≤ 1),
      min_eq_left (by norm_num : (1 : ℝ) ≤ 10)]
  simp only [s_pending, inp_release, GravisimApp.default, pre_spawn, reset_step,
    hud_step, elastic_step, pan_step, zoom_step, physics_step, world_mouse,
    screen_to_world, integrate_pass, gravity_pass, world_to_screen,
    Bool.false_eq_true, if_false, List.map_nil, List.nil_append, hzf]
  norm_num [Vector2.sub, Vector2.div_scalar, Vector2.add, Body.new,
    Option.getD, Body.mk.injEq, Vector2.mk.injEq]

/-- C6: a pointer press while an anchor is already pending is ignored — the
recorded anchor survives the frame unchanged (so no second pending spawn is
created; the anchor slot is a single `Option`), and no body is appended that
frame (the collection's length is what the physics pass leaves: `0` if reset
ran, the prior length otherwise). -/
theorem press_while_pending_ignored (s : GravisimApp) (inp : Input)
    (anchor : Vector2) (hsel : s.selected_pos = some anchor)
    (_hpress : inp.pointer_pressed = true) (hrel : inp.pointer_released = false) :
    (step s inp).selected_pos = some anchor ∧
    (step s inp).bodies.length = (if inp.key_r then 0 else s.bodies.length) := by
  have hsp : (pre_spawn s inp).selected_pos = some anchor := by
    rw [pre_spawn_selected_pos, hsel]
  have hpr :
      press_step (pre_spawn s inp) (world_mouse (pre_spawn s inp) inp) inp =
        pre_spawn s inp := by
    simp [press_step, hsp]
  have hre : ∀ (x : GravisimApp) (wm : Vector2), release_step x wm inp = x := by
    intro x wm
    simp [release_step, hrel]
  constructor
  · rw [step_eq, hpr, hre, hsp]
  · rw [step_eq, hpr, hre, pre_spawn_bodies_length]

/-- A frame input pressing the pointer with nothing else active. -/
def inp_press : Input :=
  { stable_dt := 0, key_r := false, key_h := false, key_e := false,
    key_w := false, key_s := false, key_a := false, key_d := false,
    raw_scroll_delta_y := 0, pointer_hover := some ⟨7, 9⟩,
    pointer_pressed := true, pointer_released := false, center := ⟨0, 0⟩ }

/-- Witness for C6: pressing again while the anchor `(100, 100)` is pending
keeps the anchor and appends nothing. -/
theorem press_while_pending_ignored_witness :
    s_pending.selected_pos = some ⟨100, 100⟩ ∧
    inp_press.pointer_pressed = true ∧ inp_press.pointer_released = false ∧
    (step s_pending inp_press).selected_pos = some ⟨100, 100⟩ ∧
    (step s_pending inp_press).bodies.length =
      (if inp_press.key_r then 0 else s_pending.bodies.length) :=
  ⟨rfl, rfl, rfl,
    (press_while_pending_ignored s_pending inp_press ⟨100, 100⟩ rfl rfl rfl).1,
    (press_while_pending_ignored s_pending inp_press ⟨100, 100⟩ rfl rfl rfl).2⟩

/-- The per-frame zoom multiplier never drops below the clamp floor `0.1`. -/
theorem zoom_factor_lower (y : ℝ) : (0.1 : ℝ) ≤ zoom_factor y := by
  unfold zoom_factor
  exact le_min (le_max_right _ _) (by norm_num)

/-- How a whole frame evolves the zoom: reset (if any) then the multiplier. -/
theorem step_zoom (s : GravisimApp) (inp : Input) :
    (step s inp).zoom =
      (if inp.key_r then 1 else s.zoom) * zoom_factor inp.raw_scroll_delta_y := by
  rw [step_eq, release_step_zoom, press_step_zoom, pre_spawn_zoom]

theorem foldl_step_zoom_pos (l : List Input) (s : GravisimApp)
    (h : 0 < s.zoom) : 0 < (l.foldl step s).zoom := by
  induction l generalizing s with
  | nil => simpa using h
  | cons inp rest ih =>
      refine ih _ ?_
      rw [step_zoom]
      refine mul_pos ?_ (lt_of_lt_of_le (by norm_num) (zoom_factor_lower _))
      split
      · norm_num
      · exact h

/-- C9: zoom starts at `1`, each frame multiplies it by the clamped factor
(`1` first when reset ran), the factor is bounded below by the clamp floor
`0.1`, and therefore zoom is strictly positive in every state reachable from
the default state by any sequence of frame inputs. -/
theorem zoom_stays_positive :
    GravisimApp.default.zoom = 1 ∧
    (∀ y : ℝ, (0.1 : ℝ) ≤ zoom_factor y) ∧
    (∀ (s : GravisimApp) (inp : Input),
      (step s inp).zoom =
        (if inp.key_r then 1 else s.zoom) * zoom_factor inp.raw_scroll_delta_y) ∧
    (∀ inputs : List Input, 0 < (inputs.foldl step GravisimApp.default).zoom) := by
  refine ⟨rfl, zoom_factor_lower, step_zoom, fun inputs => ?_⟩
  exact foldl_step_zoom_pos inputs GravisimApp.default
    (by norm_num [GravisimApp.default])

/-! ### The elastic flag is dead state for the simulation -/

theorem reset_step_elastic_set (s : GravisimApp) (e : Bool) (inp : Input) :
    reset_step { s with elastic := e } inp = { reset_step s inp with elastic := e } := by
  by_cases h : inp.key_r <;> simp [reset_step, h]

theorem hud_step_elastic_set (s : GravisimApp) (e : Bool) (inp : Input) :
    hud_step { s with elastic := e } inp = { hud_step s inp with elastic := e } := by
  by_cases h : inp.key_h <;> simp [hud_step, h]

theorem elastic_step_elastic_set (s : GravisimApp) (e : Bool) (inp : Input) :
    elastic_step { s with elastic := e } inp =
      { elastic_step s inp with elastic := if inp.key_e then !e else e } := by
  by_cases h : inp.key_e <;> simp [elastic_step, h]

theorem pan_step_elastic_set (s : GravisimApp) (e : Bool) (inp : Input) :
    pan_step { s with elastic := e } inp = { pan_step s inp with elastic := e } := rfl

theorem zoom_step_elastic_set (s : GravisimApp) (e : Bool) (inp : Input) :
    zoom_step { s with elastic := e } inp = { zoom_step s inp with elastic := e } := rfl

theorem physics_step_elastic_set (s : GravisimApp) (e : Bool) (inp : Input) :
    physics_step { s with elastic := e } inp =
      { physics_step s inp with elastic := e } := rfl

theorem world_mouse_elastic (s : GravisimApp) (e : Bool) (inp : Input) :
    world_mouse { s with elastic := e } inp = world_mouse s inp := rfl

theorem press_step_elastic_set (s : GravisimApp) (e : Bool) (wm : Vector2)
    (inp : Input) :
    press_step { s with elastic := e } wm inp =
      { press_step s wm inp with elastic := e } := by
  by_cases h : (inp.pointer_pressed && s.selected_pos.isNone) = true <;>
    simp [press_step, h]

theorem release_step_elastic_set (s : GravisimApp) (e : Bool) (wm : Vector2)
    (inp : Input) :
    release_step { s with elastic := e } wm inp =
      { release_step s wm inp with elastic := e } := by
  rcases hsel : s.selected_pos with _ | a <;>
    by_cases hr : inp.pointer_released <;> simp [release_step, hsel, hr]

theorem step_elastic_set (s : GravisimApp) (e : Bool) (inp : Input) :
    step { s with elastic := e } inp =
      { step s inp with elastic := if inp.key_e then !e else e } := by
  simp only [step, pre_spawn, reset_step_elastic_set, hud_step_elastic_set,
    elastic_step_elastic_set, pan_step_elastic_set, zoom_step_elastic_set,
    physics_step_elastic_set, world_mouse_elastic, press_step_elastic_set,
    release_step_elastic_set]

/-- C10: the elastic flag does not influence the simulation — two frames run
from states differing only in the flag, on the same input, produce identical
bodies, camera offsets, zooms, pending-spawn states and HUD flags, and the
flag itself merely toggles on the `E` key. -/
theorem elastic_flag_no_influence (s : GravisimApp) (e1 e2 : Bool)
    (inp : Input) :
    (step { s with elastic := e1 } inp).bodies =
      (step { s with elastic := e2 } inp).bodies ∧
    (step { s with elastic := e1 } inp).camera_pos =
      (step { s with elastic := e2 } inp).camera_pos ∧
    (step { s with elastic := e1 } inp).zoom =
      (step { s with elastic := e2 } inp).zoom ∧
    (step { s with elastic := e1 } inp).selected_pos =
      (step { s with elastic := e2 } inp).selected_pos ∧
    (step { s with elastic := e1 } inp).show_hud =
      (step { s with elastic := e2 } inp).show_hud ∧
    (step { s with elastic := e1 } inp).elastic =
      (if inp.key_e then !e1 else e1) := by
  rw [step_elastic_set s e1 inp, step_elastic_set s e2 inp]
  exact ⟨rfl, rfl, rfl, rfl, rfl, rfl⟩

end

end Gravisim
